import Mathlib

/-!
Shallow embedding of the RentTracker payment-reconciliation core
(`src/core/models/*.py`, `src/core/services/*.py`).

Conventions:

* A Python `datetime.date` is the `PyDate` structure; every comparison or
  day-difference the Python code performs on dates goes through
  `PyDate.toOrd`, the proleptic-Gregorian ordinal of `date.toordinal()`,
  which agrees with Python date ordering and `timedelta` arithmetic.
* A Python `Decimal` money amount (2-place precision) is an `Int` counted
  in hundredths of a currency unit, so the amount 3500.00 is `350000` and
  the matching tolerance `Decimal('0.01')` is `1`.  This scaling is exact
  for the 2-place decimal amounts the program handles.
* Python object identity (`id(transaction)`) is the explicit `tid` field
  of `Transaction`; the `used_transactions` set is a `List Nat` of tids.
* The repository ships no `messages_*.json` catalogues, so
  `LocalizationManager.get(key, default=...)` always returns the default
  string supplied at the call site; those strings are embedded literally.
-/

namespace RentTracker

/-- Model of Python `datetime.date`: a year, month and day. -/
structure PyDate where
  year : Nat
  month : Nat
  day : Nat
deriving DecidableEq, Repr

/-- Gregorian leap-year rule, as `calendar.isleap`. -/
def isLeapYear (y : Nat) : Bool :=
  y % 4 == 0 && (y % 100 != 0 || y % 400 == 0)

/-- Number of days in a month, as `calendar.monthrange(y, m)[1]`. -/
def daysInMonth (y m : Nat) : Nat :=
  if m = 2 then (if isLeapYear y then 29 else 28)
  else if m = 4 ∨ m = 6 ∨ m = 9 ∨ m = 11 then 30
  else 31

/-- Days of year `y` that lie strictly before month `m`. -/
def daysBeforeMonth (y m : Nat) : Nat :=
  (List.range (m - 1)).foldl (fun acc i => acc + daysInMonth y (i + 1)) 0

/-- Python `date.toordinal()`: day 1 is 0001-01-01. -/
def PyDate.toOrd (d : PyDate) : Int :=
  ((365 * (d.year - 1) + (d.year - 1) / 4 - (d.year - 1) / 100 + (d.year - 1) / 400
    + daysBeforeMonth d.year d.month + d.day : Nat) : Int)

/-- Python `(a - b).days` for two dates. -/
def PyDate.daysDiff (a b : PyDate) : Int :=
  a.toOrd - b.toOrd

/-- A Python `Decimal` amount, counted in hundredths (see module comment). -/
abbrev Money := Int

/-- `src/core/models/garage.py`, dataclass `Garage`. -/
structure Garage where
  id : String
  monthly_rent : Money
  start_date : PyDate
  payment_day : Nat
deriving DecidableEq, Repr

/-- `src/core/models/transaction.py`, dataclass `Transaction`.  The `tid`
field models Python object identity (`id(transaction)`). -/
structure Transaction where
  tid : Nat
  date : PyDate
  amount : Money
  category : String
deriving DecidableEq, Repr

/-- `Transaction.matches_amount`: `abs(self.amount - target_amount) <= tolerance`.
The Python default tolerance is `Decimal('0.01')`, i.e. `1` hundredth. -/
def Transaction.matches_amount (t : Transaction) (target : Money) (tolerance : Money) : Prop :=
  |t.amount - target| ≤ tolerance

instance (t : Transaction) (target tolerance : Money) :
    Decidable (t.matches_amount target tolerance) :=
  inferInstanceAs (Decidable (|t.amount - target| ≤ tolerance))

/-- `src/core/models/payment.py`, enum `PaymentStatus`. -/
inductive PaymentStatus where
  | received
  | overdue
  | pending
  | not_due
  | unclear
deriving DecidableEq, Repr

/-- `src/core/models/payment.py`, dataclass `Payment`. -/
structure Payment where
  garage_id : String
  amount : Money
  expected_date : PyDate
  actual_date : Option PyDate := none
  status : PaymentStatus := PaymentStatus.not_due
  days_overdue : Int := 0
  notes : String := ""
deriving DecidableEq, Repr

/-- `DateCalculator.calculate_expected_date`
(`src/core/services/date_calculator.py`): the payment day clamped to the
length of the target month. -/
def DateCalculator.calculate_expected_date (garage : Garage) (target_month : PyDate) : PyDate :=
  let days := daysInMonth target_month.year target_month.month
  if garage.payment_day ≤ days then
    ⟨target_month.year, target_month.month, garage.payment_day⟩
  else
    ⟨target_month.year, target_month.month, days⟩

/-- `src/core/services/status_determiner.py`, class `StatusDeterminer`
(constructor default: grace_period_days = 3). -/
structure StatusDeterminer where
  grace_period_days : Int := 3
deriving DecidableEq, Repr

/-- `StatusDeterminer.determine_status`, returning `(status, days_overdue)`. -/
def StatusDeterminer.determine_status (s : StatusDeterminer)
    (expected_date analysis_date : PyDate) (has_payment : Bool)
    (actual_payment_date : Option PyDate) (has_multiple_payments : Bool) :
    PaymentStatus × Int :=
  if has_multiple_payments then
    (PaymentStatus.unclear, 0)
  else if has_payment then
    match actual_payment_date with
    | some apd =>
      if expected_date.toOrd - 7 ≤ apd.toOrd ∧
          apd.toOrd ≤ expected_date.toOrd + s.grace_period_days then
        (PaymentStatus.received, apd.daysDiff expected_date)
      else
        (PaymentStatus.unclear, 0)
    | none => (PaymentStatus.received, 0)
  else if analysis_date.toOrd < expected_date.toOrd then
    (PaymentStatus.not_due, 0)
  else if expected_date.toOrd ≤ analysis_date.toOrd ∧
      analysis_date.toOrd ≤ expected_date.toOrd + s.grace_period_days then
    (PaymentStatus.pending, analysis_date.daysDiff expected_date)
  else
    (PaymentStatus.overdue, analysis_date.daysDiff expected_date)

/-- Python `min(xs, key=k)` on the non-empty list `x :: xs`: a left fold
that replaces the running best only on a strictly smaller key, so the
first element attaining the minimum wins. -/
def pyminBy {α : Type} (k : α → Int) (x : α) (xs : List α) : α :=
  xs.foldl (fun b t => if k t < k b then t else b) x

/-- `src/core/services/payment_matcher.py`, class `PaymentMatcher`
(constructor defaults: search_window_days = 7, grace_period_days = 3). -/
structure PaymentMatcher where
  search_window_days : Int := 7
  grace_period_days : Int := 3
deriving DecidableEq, Repr

/-- `PaymentMatcher._find_amount_conflicts`, applied at one amount: the ids
of the garages sharing that rent, kept only when there are at least two
(`amount_conflicts.get(amount, [])` in the loop). -/
def findAmountConflicts (garages : List Garage) (amount : Money) : List String :=
  let ids := (garages.filter (fun g => decide (g.monthly_rent = amount))).map (fun g => g.id)
  if 1 < ids.length then ids else []

/-- The candidate list built by `PaymentMatcher._find_best_match`:
not yet consumed, amount within tolerance, inside the window
`[expected - search_window_days, expected + grace_period_days]`,
and no later than the analysis date. -/
def PaymentMatcher.narrowCandidates (m : PaymentMatcher) (amount : Money)
    (expected_date : PyDate) (transactions : List Transaction)
    (used_transactions : List Nat) (analysis_date : PyDate) : List Transaction :=
  transactions.filter fun t =>
    decide (t.tid ∉ used_transactions ∧ t.matches_amount amount 1 ∧
      expected_date.toOrd - m.search_window_days ≤ t.date.toOrd ∧
      t.date.toOrd ≤ expected_date.toOrd + m.grace_period_days ∧
      t.date.toOrd ≤ analysis_date.toOrd)

/-- `PaymentMatcher._find_best_match`: returns `(transaction?, conflict_info)`.
With several candidates it takes the one closest to the expected date
(Python `min` keeps the first on ties). -/
def PaymentMatcher.findBestMatch (m : PaymentMatcher) (amount : Money)
    (expected_date : PyDate) (transactions : List Transaction)
    (used_transactions : List Nat) (conflicting_garages : List String)
    (analysis_date : PyDate) : Option Transaction × String :=
  match m.narrowCandidates amount expected_date transactions used_transactions analysis_date with
  | [] => (none, "")
  | [c] =>
    (some c,
      if conflicting_garages.isEmpty then ""
      else "Amount conflict with garages: " ++ String.intercalate ", " conflicting_garages)
  | c :: c2 :: cs =>
    (some (pyminBy (fun t => |t.date.daysDiff expected_date|) c (c2 :: cs)),
      "Multiple matches found, selected closest to expected date" ++
        (if conflicting_garages.isEmpty then ""
         else ". Amount conflict with garages: " ++ String.intercalate ", " conflicting_garages))

/-- The candidate list built by `PaymentMatcher._find_fallback_match`:
not yet consumed, amount within tolerance, no later than the analysis
date — no date-window restriction. -/
def PaymentMatcher.fallbackCandidates (_m : PaymentMatcher) (amount : Money)
    (transactions : List Transaction) (used_transactions : List Nat)
    (analysis_date : PyDate) : List Transaction :=
  transactions.filter fun t =>
    decide (t.tid ∉ used_transactions ∧ t.matches_amount amount 1 ∧
      t.date.toOrd ≤ analysis_date.toOrd)

/-- `PaymentMatcher._find_fallback_match`: with several candidates it takes
the earliest-dated one (Python `min` keeps the first on ties). -/
def PaymentMatcher.findFallbackMatch (m : PaymentMatcher) (amount : Money)
    (transactions : List Transaction) (used_transactions : List Nat)
    (conflicting_garages : List String) (analysis_date : PyDate) :
    Option Transaction × String :=
  match m.fallbackCandidates amount transactions used_transactions analysis_date with
  | [] => (none, "")
  | [c] =>
    (some c,
      if conflicting_garages.isEmpty then "Wide search match"
      else "Wide search match (amount shared with garages: " ++
        String.intercalate ", " conflicting_garages ++ ")")
  | c :: c2 :: cs =>
    (some (pyminBy (fun t => t.date.toOrd) c (c2 :: cs)),
      "Wide search - earliest of " ++ toString (c :: c2 :: cs).length ++ " matches" ++
        (if conflicting_garages.isEmpty then ""
         else " (amount shared with garages: " ++
           String.intercalate ", " conflicting_garages ++ ")"))

/-- `PaymentMatcher._create_matched_payment`: unconditionally RECEIVED, the
matched date is the transaction's date, the signed day offset is
`(transaction.date - expected_date).days`. -/
def PaymentMatcher.createMatchedPayment (_m : PaymentMatcher) (payment : Payment)
    (transaction : Transaction) (conflict_info : String) : Payment :=
  { garage_id := payment.garage_id
    amount := payment.amount
    expected_date := payment.expected_date
    actual_date := some transaction.date
    status := PaymentStatus.received
    days_overdue := transaction.date.daysDiff payment.expected_date
    notes := if conflict_info = "" then "Payment matched" else conflict_info }

/-- `PaymentMatcher._create_unmatched_payment`: status and offset come from
`StatusDeterminer.determine_status` with `has_payment=False`. -/
def PaymentMatcher.createUnmatchedPayment (m : PaymentMatcher) (payment : Payment)
    (analysis_date : PyDate) : Payment :=
  let sd : StatusDeterminer := { grace_period_days := m.grace_period_days }
  let r := sd.determine_status payment.expected_date analysis_date false none false
  { garage_id := payment.garage_id
    amount := payment.amount
    expected_date := payment.expected_date
    actual_date := none
    status := r.1
    days_overdue := r.2
    notes := "No matching payment found" }

/-- One iteration of the loop in `PaymentMatcher.match_payments` for one
garage: the narrow search, the fallback search when the narrow search
found nothing, and the created payment.  Returns the selected transaction
(if any) together with the payment record. -/
def PaymentMatcher.matchOne (m : PaymentMatcher) (garages : List Garage)
    (transactions : List Transaction) (analysis_date target_month : PyDate)
    (used_transactions : List Nat) (garage : Garage) : Option Transaction × Payment :=
  let expected_date := DateCalculator.calculate_expected_date garage target_month
  let conflicting := findAmountConflicts garages garage.monthly_rent
  let first := m.findBestMatch garage.monthly_rent expected_date transactions
    used_transactions conflicting analysis_date
  let chosen :=
    match first.1 with
    | some t => (some t, first.2)
    | none => m.findFallbackMatch garage.monthly_rent transactions
        used_transactions conflicting analysis_date
  let base : Payment :=
    { garage_id := garage.id, amount := garage.monthly_rent, expected_date := expected_date }
  match chosen with
  | (some t, conflict_info) => (some t, m.createMatchedPayment base t conflict_info)
  | (none, _) => (none, m.createUnmatchedPayment base analysis_date)

/-- The loop of `PaymentMatcher.match_payments`, also recording which
transaction each garage consumed; a selected transaction's tid is added to
`used_transactions` before the next garage is processed. -/
def PaymentMatcher.matchTrace (m : PaymentMatcher) (garages : List Garage)
    (transactions : List Transaction) (analysis_date target_month : PyDate) :
    List Garage → List Nat → List (Option Transaction × Payment)
  | [], _ => []
  | g :: gs, used_transactions =>
    let r := m.matchOne garages transactions analysis_date target_month used_transactions g
    let used2 :=
      match r.1 with
      | some t => t.tid :: used_transactions
      | none => used_transactions
    r :: m.matchTrace garages transactions analysis_date target_month gs used2

/-- `PaymentMatcher.match_payments`: one payment per garage, in input
order; `target_month = none` defaults to the first day of the analysis
date's month. -/
def PaymentMatcher.match_payments (m : PaymentMatcher) (garages : List Garage)
    (transactions : List Transaction) (analysis_date : PyDate)
    (target_month : Option PyDate) : List Payment :=
  let tm := target_month.getD ⟨analysis_date.year, analysis_date.month, 1⟩
  (m.matchTrace garages transactions analysis_date tm garages []).map (fun r => r.2)

/-- The tids of the transactions consumed during one
`PaymentMatcher.match_payments` run, in consumption order. -/
def PaymentMatcher.selectedTransactionIds (m : PaymentMatcher) (garages : List Garage)
    (transactions : List Transaction) (analysis_date : PyDate)
    (target_month : Option PyDate) : List Nat :=
  let tm := target_month.getD ⟨analysis_date.year, analysis_date.month, 1⟩
  (m.matchTrace garages transactions analysis_date tm garages []).filterMap
    (fun r => r.1.map (fun t => t.tid))

/-- `src/core/models/report.py`, dataclass `PaymentSummary`. -/
structure PaymentSummary where
  total_garages : Nat
  received_count : Nat
  overdue_count : Nat
  pending_count : Nat
  not_due_count : Nat
  unclear_count : Nat
  total_expected : Money
  total_received : Money
deriving DecidableEq, Repr

/-- `PaymentSummary.collection_rate`:
`received_count / total_garages * 100`, and `0.0` when there are no
garages. -/
def PaymentSummary.collection_rate (s : PaymentSummary) : Rat :=
  if s.total_garages = 0 then 0
  else ((s.received_count : Rat) / (s.total_garages : Rat)) * 100

/-- `PaymentReport._calculate_summary`: per-status counts and amount sums. -/
def calculateSummary (payments : List Payment) : PaymentSummary :=
  { total_garages := payments.length
    received_count := payments.countP (fun p => decide (p.status = PaymentStatus.received))
    overdue_count := payments.countP (fun p => decide (p.status = PaymentStatus.overdue))
    pending_count := payments.countP (fun p => decide (p.status = PaymentStatus.pending))
    not_due_count := payments.countP (fun p => decide (p.status = PaymentStatus.not_due))
    unclear_count := payments.countP (fun p => decide (p.status = PaymentStatus.unclear))
    total_expected := ((payments.map (fun p => p.amount)).sum : Money)
    total_received :=
      (((payments.filter (fun p => decide (p.status = PaymentStatus.received))).map
        (fun p => p.amount)).sum : Money) }

/-- `src/core/models/report.py`, dataclass `PaymentReport` (the
spec's ReconciliationReport); `generated_at` is wall-clock metadata and is
omitted. -/
structure PaymentReport where
  analysis_date : PyDate
  garage_file : String
  statement_file : String
  payments : List Payment
  summary : PaymentSummary
  notes : List String
deriving DecidableEq, Repr

/-- `PaymentReport.create` followed by `__post_init__` validation: an
empty payment list or a missing source-file name raises `ValueError`,
modelled as `Except.error` with the raised message. -/
def PaymentReport.build (garage_file statement_file : String) (payments : List Payment)
    (analysis_date : PyDate) (notes : List String) : Except String PaymentReport :=
  if payments.isEmpty then
    Except.error "Report must contain at least one payment"
  else if garage_file = "" ∨ statement_file = "" then
    Except.error "Source files must be specified"
  else
    Except.ok
      { analysis_date := analysis_date
        garage_file := garage_file
        statement_file := statement_file
        payments := payments
        summary := calculateSummary payments
        notes := notes }

/-! ### Helper lemmas -/

theorem pyminBy_cons {α : Type} (k : α → Int) (x t : α) (ts : List α) :
    pyminBy k x (t :: ts) = pyminBy k (if k t < k x then t else x) ts := rfl

/-- Python `min` selects the first element attaining the minimal key:
strictly below every earlier element, and at most every later one. -/
theorem pyminBy_first_min {α : Type} (k : α → Int) :
    ∀ (xs : List α) (x : α), ∃ pre post, x :: xs = pre ++ pyminBy k x xs :: post ∧
      (∀ c ∈ pre, k (pyminBy k x xs) < k c) ∧ (∀ c ∈ post, k (pyminBy k x xs) ≤ k c) := by
  intro xs
  induction xs with
  | nil =>
    intro x
    exact ⟨[], [], rfl, by simp, by simp⟩
  | cons t ts ih =>
    intro x
    rw [pyminBy_cons]
    by_cases hlt : k t < k x
    · rw [if_pos hlt]
      obtain ⟨pre, post, hdec, hpre, hpost⟩ := ih t
      have hble : k (pyminBy k t ts) ≤ k t := by
        cases pre with
        | nil =>
          rw [List.nil_append] at hdec
          injection hdec with h1 _
          rw [← h1]
        | cons p ps =>
          rw [List.cons_append] at hdec
          injection hdec with h1 _
          exact le_of_lt (h1 ▸ hpre p (List.mem_cons_self p ps))
      refine ⟨x :: pre, post, ?_, ?_, hpost⟩
      · rw [List.cons_append, ← hdec]
      · intro c hc
        rcases List.mem_cons.mp hc with rfl | hc
        · exact lt_of_le_of_lt hble hlt
        · exact hpre c hc
    · rw [if_neg hlt]
      obtain ⟨pre, post, hdec, hpre, hpost⟩ := ih x
      cases pre with
      | nil =>
        rw [List.nil_append] at hdec
        injection hdec with h1 h2
        refine ⟨[], t :: ts, ?_, by simp, ?_⟩
        · rw [List.nil_append, ← h1]
        · intro c hc
          rcases List.mem_cons.mp hc with rfl | hc
          · exact le_of_not_lt (h1 ▸ hlt)
          · exact hpost c (h2 ▸ hc)
      | cons p ps =>
        rw [List.cons_append] at hdec
        injection hdec with h1 h2
        have hbx : k (pyminBy k x ts) < k x := h1 ▸ hpre p (List.mem_cons_self p ps)
        refine ⟨x :: t :: ps, post, ?_, ?_, hpost⟩
        · rw [List.cons_append, List.cons_append, ← h2]
        · intro c hc
          rcases List.mem_cons.mp hc with rfl | hc
          · exact hbx
          · rcases List.mem_cons.mp hc with rfl | hc
            · exact lt_of_lt_of_le hbx (le_of_not_lt hlt)
            · exact hpre c (List.mem_cons_of_mem p hc)

theorem pyminBy_mem {α : Type} (k : α → Int) (x : α) (xs : List α) :
    pyminBy k x xs ∈ x :: xs := by
  obtain ⟨pre, post, hdec, -, -⟩ := pyminBy_first_min k xs x
  rw [hdec]
  exact List.mem_append_right _ (List.mem_cons_self _ _)

theorem pyminBy_le {α : Type} (k : α → Int) (x : α) (xs : List α) :
    ∀ c ∈ x :: xs, k (pyminBy k x xs) ≤ k c := by
  obtain ⟨pre, post, hdec, hpre, hpost⟩ := pyminBy_first_min k xs x
  intro c hc
  rw [hdec] at hc
  rcases List.mem_append.mp hc with h | h
  · exact le_of_lt (hpre c h)
  · rcases List.mem_cons.mp h with rfl | h
    · exact le_refl _
    · exact hpost c h

theorem findBestMatch_none_iff (m : PaymentMatcher) (amount : Money)
    (expected_date : PyDate) (transactions : List Transaction)
    (used_transactions : List Nat) (conflicting_garages : List String)
    (analysis_date : PyDate) :
    (m.findBestMatch amount expected_date transactions used_transactions
      conflicting_garages analysis_date).1 = none ↔
    m.narrowCandidates amount expected_date transactions used_transactions analysis_date = [] := by
  unfold PaymentMatcher.findBestMatch
  split <;> simp_all

theorem findBestMatch_some_mem (m : PaymentMatcher) (amount : Money)
    (expected_date : PyDate) (transactions : List Transaction)
    (used_transactions : List Nat) (conflicting_garages : List String)
    (analysis_date : PyDate) (t : Transaction) :
    (m.findBestMatch amount expected_date transactions used_transactions
      conflicting_garages analysis_date).1 = some t →
    t ∈ m.narrowCandidates amount expected_date transactions used_transactions analysis_date := by
  unfold PaymentMatcher.findBestMatch
  split
  · simp
  · next c heq =>
    intro h
    simp only [Option.some.injEq] at h
    rw [heq, ← h]
    simp
  · next c c2 cs heq =>
    intro h
    simp only [Option.some.injEq] at h
    rw [heq, ← h]
    exact pyminBy_mem _ c (c2 :: cs)

theorem findBestMatch_multi (m : PaymentMatcher) (amount : Money)
    (expected_date : PyDate) (transactions : List Transaction)
    (used_transactions : List Nat) (conflicting_garages : List String)
    (analysis_date : PyDate) (c c2 : Transaction) (cs : List Transaction)
    (h : m.narrowCandidates amount expected_date transactions used_transactions
      analysis_date = c :: c2 :: cs) :
    (m.findBestMatch amount expected_date transactions used_transactions
      conflicting_garages analysis_date).1 =
    some (pyminBy (fun t => |t.date.daysDiff expected_date|) c (c2 :: cs)) := by
  unfold PaymentMatcher.findBestMatch
  rw [h]

theorem findFallbackMatch_none_iff (m : PaymentMatcher) (amount : Money)
    (transactions : List Transaction) (used_transactions : List Nat)
    (conflicting_garages : List String) (analysis_date : PyDate) :
    (m.findFallbackMatch amount transactions used_transactions
      conflicting_garages analysis_date).1 = none ↔
    m.fallbackCandidates amount transactions used_transactions analysis_date = [] := by
  unfold PaymentMatcher.findFallbackMatch
  split <;> simp_all

theorem findFallbackMatch_some_mem (m : PaymentMatcher) (amount : Money)
    (transactions : List Transaction) (used_transactions : List Nat)
    (conflicting_garages : List String) (analysis_date : PyDate) (t : Transaction) :
    (m.findFallbackMatch amount transactions used_transactions
      conflicting_garages analysis_date).1 = some t →
    t ∈ m.fallbackCandidates amount transactions used_transactions analysis_date := by
  unfold PaymentMatcher.findFallbackMatch
  split
  · simp
  · next c heq =>
    intro h
    simp only [Option.some.injEq] at h
    rw [heq, ← h]
    simp
  · next c c2 cs heq =>
    intro h
    simp only [Option.some.injEq] at h
    rw [heq, ← h]
    exact pyminBy_mem _ c (c2 :: cs)

theorem findFallbackMatch_multi (m : PaymentMatcher) (amount : Money)
    (transactions : List Transaction) (used_transactions : List Nat)
    (conflicting_garages : List String) (analysis_date : PyDate)
    (c c2 : Transaction) (cs : List Transaction)
    (h : m.fallbackCandidates amount transactions used_transactions
      analysis_date = c :: c2 :: cs) :
    (m.findFallbackMatch amount transactions used_transactions
      conflicting_garages analysis_date).1 =
    some (pyminBy (fun t => t.date.toOrd) c (c2 :: cs)) := by
  unfold PaymentMatcher.findFallbackMatch
  rw [h]

/-- Membership in the narrow candidate list, spelled out. -/
theorem mem_narrowCandidates (m : PaymentMatcher) (amount : Money)
    (expected_date : PyDate) (transactions : List Transaction)
    (used_transactions : List Nat) (analysis_date : PyDate) (t : Transaction) :
    t ∈ m.narrowCandidates amount expected_date transactions used_transactions analysis_date ↔
    t ∈ transactions ∧ t.tid ∉ used_transactions ∧ |t.amount - amount| ≤ 1 ∧
      expected_date.toOrd - m.search_window_days ≤ t.date.toOrd ∧
      t.date.toOrd ≤ expected_date.toOrd + m.grace_period_days ∧
      t.date.toOrd ≤ analysis_date.toOrd := by
  unfold PaymentMatcher.narrowCandidates
  simp [List.mem_filter, Transaction.matches_amount, and_assoc]

/-- Membership in the fallback candidate list, spelled out. -/
theorem mem_fallbackCandidates (m : PaymentMatcher) (amount : Money)
    (transactions : List Transaction) (used_transactions : List Nat)
    (analysis_date : PyDate) (t : Transaction) :
    t ∈ m.fallbackCandidates amount transactions used_transactions analysis_date ↔
    t ∈ transactions ∧ t.tid ∉ used_transactions ∧ |t.amount - amount| ≤ 1 ∧
      t.date.toOrd ≤ analysis_date.toOrd := by
  unfold PaymentMatcher.fallbackCandidates
  simp [List.mem_filter, Transaction.matches_amount, and_assoc]

/-- Unfolding of `matchOne` into an explicit case split on the two
searches. -/
theorem matchOne_unfold (m : PaymentMatcher) (garages : List Garage)
    (transactions : List Transaction) (analysis_date target_month : PyDate)
    (used_transactions : List Nat) (g : Garage) :
    m.matchOne garages transactions analysis_date target_month used_transactions g =
      (match (m.findBestMatch g.monthly_rent
          (DateCalculator.calculate_expected_date g target_month) transactions
          used_transactions (findAmountConflicts garages g.monthly_rent) analysis_date).1 with
       | some t =>
         (some t, m.createMatchedPayment
           { garage_id := g.id, amount := g.monthly_rent,
             expected_date := DateCalculator.calculate_expected_date g target_month } t
           (m.findBestMatch g.monthly_rent
             (DateCalculator.calculate_expected_date g target_month) transactions
             used_transactions (findAmountConflicts garages g.monthly_rent) analysis_date).2)
       | none =>
         match (m.findFallbackMatch g.monthly_rent transactions used_transactions
             (findAmountConflicts garages g.monthly_rent) analysis_date).1 with
         | some t =>
           (some t, m.createMatchedPayment
             { garage_id := g.id, amount := g.monthly_rent,
               expected_date := DateCalculator.calculate_expected_date g target_month } t
             (m.findFallbackMatch g.monthly_rent transactions used_transactions
               (findAmountConflicts garages g.monthly_rent) analysis_date).2)
         | none =>
           (none, m.createUnmatchedPayment
             { garage_id := g.id, amount := g.monthly_rent,
               expected_date := DateCalculator.calculate_expected_date g target_month }
             analysis_date)) := by
  cases hb : m.findBestMatch g.monthly_rent
      (DateCalculator.calculate_expected_date g target_month) transactions
      used_transactions (findAmountConflicts garages g.monthly_rent) analysis_date with
  | mk bs bci =>
    cases bs with
    | some t => simp [PaymentMatcher.matchOne, hb]
    | none =>
      cases hf : m.findFallbackMatch g.monthly_rent transactions used_transactions
          (findAmountConflicts garages g.monthly_rent) analysis_date with
      | mk fs fci =>
        cases fs <;> simp [PaymentMatcher.matchOne, hb, hf]

/-- A matched outcome: status RECEIVED, matched date, signed offset, the
garage's id and the computed expected date. -/
theorem matchOne_matched (m : PaymentMatcher) (garages : List Garage)
    (transactions : List Transaction) (analysis_date target_month : PyDate)
    (used_transactions : List Nat) (g : Garage) (t : Transaction)
    (h : (m.matchOne garages transactions analysis_date target_month used_transactions g).1
      = some t) :
    (m.matchOne garages transactions analysis_date target_month used_transactions g).2.status
        = PaymentStatus.received ∧
    (m.matchOne garages transactions analysis_date target_month used_transactions g).2.actual_date
        = some t.date ∧
    (m.matchOne garages transactions analysis_date target_month used_transactions g).2.days_overdue
        = t.date.daysDiff (DateCalculator.calculate_expected_date g target_month) ∧
    (m.matchOne garages transactions analysis_date target_month
        used_transactions g).2.expected_date
        = DateCalculator.calculate_expected_date g target_month ∧
    (m.matchOne garages transactions analysis_date target_month used_transactions g).2.garage_id
        = g.id := by
  rw [matchOne_unfold] at h ⊢
  split at h
  · next t2 hb =>
    simp only [Option.some.injEq] at h
    subst h
    simp [hb, PaymentMatcher.createMatchedPayment]
  · next hb =>
    split at h
    · next t2 hf =>
      simp only [Option.some.injEq] at h
      subst h
      simp [hb, hf, PaymentMatcher.createMatchedPayment]
    · next hf => simp at h

/-- An unmatched outcome: the payment is the one built by
`_create_unmatched_payment`. -/
theorem matchOne_unmatched (m : PaymentMatcher) (garages : List Garage)
    (transactions : List Transaction) (analysis_date target_month : PyDate)
    (used_transactions : List Nat) (g : Garage)
    (h : (m.matchOne garages transactions analysis_date target_month used_transactions g).1
      = none) :
    (m.matchOne garages transactions analysis_date target_month used_transactions g).2
      = m.createUnmatchedPayment
        { garage_id := g.id, amount := g.monthly_rent,
          expected_date := DateCalculator.calculate_expected_date g target_month }
        analysis_date := by
  rw [matchOne_unfold] at h ⊢
  split at h
  · simp at h
  · next hb =>
    split at h
    · simp at h
    · next hf => simp [hb, hf]

/-- The selected transaction always comes from one of the two searches. -/
theorem matchOne_selected_from_search (m : PaymentMatcher) (garages : List Garage)
    (transactions : List Transaction) (analysis_date target_month : PyDate)
    (used_transactions : List Nat) (g : Garage) (t : Transaction)
    (h : (m.matchOne garages transactions analysis_date target_month used_transactions g).1
      = some t) :
    (m.findBestMatch g.monthly_rent (DateCalculator.calculate_expected_date g target_month)
        transactions used_transactions (findAmountConflicts garages g.monthly_rent)
        analysis_date).1 = some t ∨
    (m.findFallbackMatch g.monthly_rent transactions used_transactions
        (findAmountConflicts garages g.monthly_rent) analysis_date).1 = some t := by
  rw [matchOne_unfold] at h
  split at h
  · next t2 hb =>
    simp only [Option.some.injEq] at h
    exact Or.inl (h ▸ hb)
  · next hb =>
    split at h
    · next t2 hf =>
      simp only [Option.some.injEq] at h
      exact Or.inr (h ▸ hf)
    · simp at h

/-- A selected transaction was not already consumed. -/
theorem matchOne_selected_not_used (m : PaymentMatcher) (garages : List Garage)
    (transactions : List Transaction) (analysis_date target_month : PyDate)
    (used_transactions : List Nat) (g : Garage) (t : Transaction)
    (h : (m.matchOne garages transactions analysis_date target_month used_transactions g).1
      = some t) :
    t.tid ∉ used_transactions := by
  rcases matchOne_selected_from_search m garages transactions analysis_date target_month
      used_transactions g t h with hb | hf
  · exact ((mem_narrowCandidates m _ _ _ _ _ t).mp
      (findBestMatch_some_mem m _ _ _ _ _ _ t hb)).2.1
  · exact ((mem_fallbackCandidates m _ _ _ _ t).mp
      (findFallbackMatch_some_mem m _ _ _ _ _ t hf)).2.1

theorem matchOne_garage_id (m : PaymentMatcher) (garages : List Garage)
    (transactions : List Transaction) (analysis_date target_month : PyDate)
    (used_transactions : List Nat) (g : Garage) :
    (m.matchOne garages transactions analysis_date target_month used_transactions g).2.garage_id
      = g.id := by
  rw [matchOne_unfold]
  split
  · simp [PaymentMatcher.createMatchedPayment]
  · split <;>
      simp [PaymentMatcher.createMatchedPayment, PaymentMatcher.createUnmatchedPayment]

theorem matchTrace_cons (m : PaymentMatcher) (garages : List Garage)
    (transactions : List Transaction) (analysis_date target_month : PyDate)
    (g : Garage) (gs : List Garage) (used_transactions : List Nat) :
    m.matchTrace garages transactions analysis_date target_month (g :: gs) used_transactions =
      m.matchOne garages transactions analysis_date target_month used_transactions g ::
      m.matchTrace garages transactions analysis_date target_month gs
        (match (m.matchOne garages transactions analysis_date target_month
            used_transactions g).1 with
         | some t => t.tid :: used_transactions
         | none => used_transactions) := rfl

theorem matchTrace_length (m : PaymentMatcher) (garages : List Garage)
    (transactions : List Transaction) (analysis_date target_month : PyDate) :
    ∀ (gs : List Garage) (used_transactions : List Nat),
      (m.matchTrace garages transactions analysis_date target_month gs
        used_transactions).length = gs.length := by
  intro gs
  induction gs with
  | nil => intro used_transactions; rfl
  | cons g gs ih =>
    intro used_transactions
    rw [matchTrace_cons]
    simp [ih]

theorem matchTrace_garage_ids (m : PaymentMatcher) (garages : List Garage)
    (transactions : List Transaction) (analysis_date target_month : PyDate) :
    ∀ (gs : List Garage) (used_transactions : List Nat),
      (m.matchTrace garages transactions analysis_date target_month gs
        used_transactions).map (fun r => r.2.garage_id) = gs.map (fun g => g.id) := by
  intro gs
  induction gs with
  | nil => intro used_transactions; rfl
  | cons g gs ih =>
    intro used_transactions
    rw [matchTrace_cons]
    simp [ih, matchOne_garage_id]

/-- The tids consumed along a trace are pairwise distinct and disjoint
from the tids already consumed when the trace started. -/
theorem matchTrace_tids_nodup (m : PaymentMatcher) (garages : List Garage)
    (transactions : List Transaction) (analysis_date target_month : PyDate) :
    ∀ (gs : List Garage) (used_transactions : List Nat),
      ((m.matchTrace garages transactions analysis_date target_month gs
          used_transactions).filterMap (fun r => r.1.map (fun t => t.tid))).Nodup ∧
      ∀ x ∈ (m.matchTrace garages transactions analysis_date target_month gs
          used_transactions).filterMap (fun r => r.1.map (fun t => t.tid)),
        x ∉ used_transactions := by
  intro gs
  induction gs with
  | nil =>
    intro used_transactions
    refine ⟨?_, ?_⟩ <;> simp [PaymentMatcher.matchTrace]
  | cons g gs ih =>
    intro used_transactions
    rw [matchTrace_cons]
    rcases hsel : (m.matchOne garages transactions analysis_date target_month
        used_transactions g).1 with - | t
    · simpa [List.filterMap_cons, hsel] using ih used_transactions
    · have hnu : t.tid ∉ used_transactions :=
        matchOne_selected_not_used m garages transactions analysis_date target_month
          used_transactions g t hsel
      obtain ⟨ihn, ihd⟩ := ih (t.tid :: used_transactions)
      have hni : t.tid ∉ (m.matchTrace garages transactions analysis_date target_month gs
          (t.tid :: used_transactions)).filterMap (fun r => r.1.map (fun t => t.tid)) := by
        intro hmem
        exact ihd t.tid hmem (List.mem_cons_self _ _)
      constructor
      · simpa [List.filterMap_cons, hsel] using List.Nodup.cons hni ihn
      · intro x hx
        simp only [List.filterMap_cons, hsel, Option.map_some] at hx
        rcases List.mem_cons.mp hx with rfl | hx
        · exact hnu
        · exact fun hxu => ihd x hx (List.mem_cons_of_mem _ hxu)

/-- Every payment has exactly one of the five statuses, so the per-status
counts add up to the list length. -/
theorem countP_status_sum (payments : List Payment) :
    payments.countP (fun p => decide (p.status = PaymentStatus.received)) +
    payments.countP (fun p => decide (p.status = PaymentStatus.overdue)) +
    payments.countP (fun p => decide (p.status = PaymentStatus.pending)) +
    payments.countP (fun p => decide (p.status = PaymentStatus.not_due)) +
    payments.countP (fun p => decide (p.status = PaymentStatus.unclear)) =
    payments.length := by
  induction payments with
  | nil => rfl
  | cons p ps ih =>
    simp only [List.countP_cons, List.length_cons]
    cases hp : p.status <;> simp [hp] <;> omega

theorem isEmpty_eq_false_of_ne_nil {α : Type} {l : List α} (h : l ≠ []) :
    l.isEmpty = false := by
  cases l with
  | nil => exact absurd rfl h
  | cons a l => rfl

theorem append_ne_empty_left (a b : String) (h : a ≠ "") : a ++ b ≠ "" := by
  intro hab
  refine h (String.ext ?_)
  have hd := congrArg String.data hab
  rw [String.data_append] at hd
  exact (List.append_eq_nil.mp hd).1

/-- When the narrow search selects a transaction and the amount is
conflicted, the conflict-info string embeds the joined conflicting ids. -/
theorem findBestMatch_conflict_note (m : PaymentMatcher) (amount : Money)
    (expected_date : PyDate) (transactions : List Transaction)
    (used_transactions : List Nat) (conflicting_garages : List String)
    (analysis_date : PyDate) (t : Transaction)
    (hc : conflicting_garages ≠ [])
    (h : (m.findBestMatch amount expected_date transactions used_transactions
      conflicting_garages analysis_date).1 = some t) :
    ∃ pre post, (m.findBestMatch amount expected_date transactions used_transactions
      conflicting_garages analysis_date).2 =
      pre ++ String.intercalate ", " conflicting_garages ++ post ∧
    (m.findBestMatch amount expected_date transactions used_transactions
      conflicting_garages analysis_date).2 ≠ "" := by
  have hcf : conflicting_garages.isEmpty = false := isEmpty_eq_false_of_ne_nil hc
  have hne : ¬(conflicting_garages.isEmpty = true) := by rw [hcf]; exact Bool.false_ne_true
  unfold PaymentMatcher.findBestMatch at h ⊢
  split at h
  · simp at h
  · rw [if_neg hne]
    refine ⟨"Amount conflict with garages: ", "", ?_, ?_⟩
    · rw [String.append_empty]
    · exact append_ne_empty_left _ _ (by decide)
  · rw [if_neg hne]
    refine ⟨"Multiple matches found, selected closest to expected date" ++
      ". Amount conflict with garages: ", "", ?_, ?_⟩
    · rw [String.append_empty, String.append_assoc]
    · exact append_ne_empty_left _ _ (by decide)

/-- Same for the fallback search. -/
theorem findFallbackMatch_conflict_note (m : PaymentMatcher) (amount : Money)
    (transactions : List Transaction) (used_transactions : List Nat)
    (conflicting_garages : List String) (analysis_date : PyDate) (t : Transaction)
    (hc : conflicting_garages ≠ [])
    (h : (m.findFallbackMatch amount transactions used_transactions
      conflicting_garages analysis_date).1 = some t) :
    ∃ pre post, (m.findFallbackMatch amount transactions used_transactions
      conflicting_garages analysis_date).2 =
      pre ++ String.intercalate ", " conflicting_garages ++ post ∧
    (m.findFallbackMatch amount transactions used_transactions
      conflicting_garages analysis_date).2 ≠ "" := by
  have hcf : conflicting_garages.isEmpty = false := isEmpty_eq_false_of_ne_nil hc
  have hne : ¬(conflicting_garages.isEmpty = true) := by rw [hcf]; exact Bool.false_ne_true
  unfold PaymentMatcher.findFallbackMatch at h ⊢
  split at h
  · simp at h
  · rw [if_neg hne]
    refine ⟨"Wide search match (amount shared with garages: ", ")", ?_, ?_⟩
    · rfl
    · exact append_ne_empty_left _ _ (append_ne_empty_left _ _ (by decide))
  · next c c2 cs heq =>
    rw [if_neg hne]
    refine ⟨"Wide search - earliest of " ++ toString (c :: c2 :: cs).length ++ " matches" ++
      " (amount shared with garages: ", ")", ?_, ?_⟩
    · simp only [String.append_assoc]
    · exact append_ne_empty_left _ _
        (append_ne_empty_left _ _ (append_ne_empty_left _ _ (by decide)))

/-! ### Claim theorems -/

/-- Claim C5: for every obligation and target month, `expected_date`
returns `date(year, month, recurrence_day)` when the recurrence day fits
in the month and otherwise silently clamps to the month's last day (the
function is total, so no error is possible); in particular recurrence day
31 in 30-day April 2025 yields day 30, day 29 in non-leap February 2025
yields day 28, and day 29 in leap February 2024 yields day 29. -/
theorem claim_expected_date_clamping (g : Garage) (target_month : PyDate) :
    (g.payment_day ≤ daysInMonth target_month.year target_month.month →
      DateCalculator.calculate_expected_date g target_month =
        ⟨target_month.year, target_month.month, g.payment_day⟩) ∧
    (daysInMonth target_month.year target_month.month < g.payment_day →
      DateCalculator.calculate_expected_date g target_month =
        ⟨target_month.year, target_month.month,
          daysInMonth target_month.year target_month.month⟩) ∧
    DateCalculator.calculate_expected_date ⟨"G31", 100, ⟨2025, 1, 31⟩, 31⟩ ⟨2025, 4, 1⟩ =
      ⟨2025, 4, 30⟩ ∧
    DateCalculator.calculate_expected_date ⟨"G29", 100, ⟨2025, 1, 29⟩, 29⟩ ⟨2025, 2, 1⟩ =
      ⟨2025, 2, 28⟩ ∧
    DateCalculator.calculate_expected_date ⟨"G29", 100, ⟨2025, 1, 29⟩, 29⟩ ⟨2024, 2, 1⟩ =
      ⟨2024, 2, 29⟩ := by
  refine ⟨?_, ?_, by decide, by decide, by decide⟩
  · intro h
    simp [DateCalculator.calculate_expected_date, h]
  · intro h
    have h2 : ¬(g.payment_day ≤ daysInMonth target_month.year target_month.month) := by omega
    simp [DateCalculator.calculate_expected_date, h2]

theorem claim_expected_date_clamping_witness :
    15 ≤ daysInMonth 2025 4 ∧
    DateCalculator.calculate_expected_date ⟨"G15", 100, ⟨2025, 1, 15⟩, 15⟩ ⟨2025, 4, 1⟩ =
      ⟨2025, 4, 15⟩ :=
  ⟨by decide,
    (claim_expected_date_clamping ⟨"G15", 100, ⟨2025, 1, 15⟩, 15⟩ ⟨2025, 4, 1⟩).1 (by decide)⟩

/-- Claim C6: with no payment and grace period 3, the classifier returns
NOT_DUE (offset 0) before the expected date, PENDING with offset
`(analysis - expected).days` inside `[expected, expected + 3]`, and
OVERDUE with offset `(analysis - expected).days` after the grace end; for
expected 2025-01-15, analysis 2025-01-18 gives PENDING offset 3 and
analysis 2025-01-19 gives OVERDUE. -/
theorem claim_status_boundaries (expected_date analysis_date : PyDate) :
    (analysis_date.toOrd < expected_date.toOrd →
      (StatusDeterminer.mk 3).determine_status expected_date analysis_date false none false =
        (PaymentStatus.not_due, 0)) ∧
    (expected_date.toOrd ≤ analysis_date.toOrd ∧
        analysis_date.toOrd ≤ expected_date.toOrd + 3 →
      (StatusDeterminer.mk 3).determine_status expected_date analysis_date false none false =
        (PaymentStatus.pending, analysis_date.daysDiff expected_date)) ∧
    (expected_date.toOrd + 3 < analysis_date.toOrd →
      (StatusDeterminer.mk 3).determine_status expected_date analysis_date false none false =
        (PaymentStatus.overdue, analysis_date.daysDiff expected_date)) ∧
    (StatusDeterminer.mk 3).determine_status ⟨2025, 1, 15⟩ ⟨2025, 1, 18⟩ false none false =
      (PaymentStatus.pending, 3) ∧
    ((StatusDeterminer.mk 3).determine_status ⟨2025, 1, 15⟩ ⟨2025, 1, 19⟩ false none false).1 =
      PaymentStatus.overdue := by
  refine ⟨?_, ?_, ?_, by decide, by decide⟩
  · intro h
    simp [StatusDeterminer.determine_status, h]
  · intro h
    have h1 : ¬(analysis_date.toOrd < expected_date.toOrd) := by omega
    simp [StatusDeterminer.determine_status, h1, h]
  · intro h
    have h1 : ¬(analysis_date.toOrd < expected_date.toOrd) := by omega
    have h2 : ¬(expected_date.toOrd ≤ analysis_date.toOrd ∧
        analysis_date.toOrd ≤ expected_date.toOrd + 3) := by omega
    simp [StatusDeterminer.determine_status, h1, h2]

theorem claim_status_boundaries_witness :
    (PyDate.mk 2025 1 14).toOrd < (PyDate.mk 2025 1 15).toOrd ∧
    (StatusDeterminer.mk 3).determine_status ⟨2025, 1, 15⟩ ⟨2025, 1, 14⟩ false none false =
      (PaymentStatus.not_due, 0) :=
  ⟨by decide, (claim_status_boundaries ⟨2025, 1, 15⟩ ⟨2025, 1, 14⟩).1 (by decide)⟩

/-- Claim C9: the five per-status counts sum to `total_garages`, the
received total is the sum of RECEIVED amounts, and the collection rate is
`received_count / total_garages * 100`, being `0` both when
`total_garages = 0` and when `received_count = 0`. -/
theorem claim_summary_invariants (payments : List Payment) :
    ((calculateSummary payments).received_count + (calculateSummary payments).overdue_count +
      (calculateSummary payments).pending_count + (calculateSummary payments).not_due_count +
      (calculateSummary payments).unclear_count = (calculateSummary payments).total_garages) ∧
    ((calculateSummary payments).total_received =
      ((payments.filter (fun p => decide (p.status = PaymentStatus.received))).map
        (fun p => p.amount)).sum) ∧
    ((calculateSummary payments).total_garages ≠ 0 →
      (calculateSummary payments).collection_rate =
        ((calculateSummary payments).received_count : Rat) /
          ((calculateSummary payments).total_garages : Rat) * 100) ∧
    ((calculateSummary payments).total_garages = 0 →
      (calculateSummary payments).collection_rate = 0) ∧
    ((calculateSummary payments).received_count = 0 →
      (calculateSummary payments).collection_rate = 0) := by
  refine ⟨countP_status_sum payments, rfl, ?_, ?_, ?_⟩
  · intro h
    simp [PaymentSummary.collection_rate, h]
  · intro h
    simp [PaymentSummary.collection_rate, h]
  · intro h
    by_cases h0 : (calculateSummary payments).total_garages = 0
    · simp [PaymentSummary.collection_rate, h0]
    · simp [PaymentSummary.collection_rate, h0, h]

theorem claim_summary_invariants_witness :
    ((calculateSummary [⟨"1", 100, ⟨2025, 1, 15⟩, none, PaymentStatus.not_due, 0, ""⟩]).total_garages ≠ 0 ∧
     (calculateSummary [⟨"1", 100, ⟨2025, 1, 15⟩, none, PaymentStatus.not_due, 0, ""⟩]).received_count = 0 ∧
     (calculateSummary [⟨"1", 100, ⟨2025, 1, 15⟩, none, PaymentStatus.not_due, 0, ""⟩]).collection_rate = 0 ∧
     (calculateSummary [⟨"1", 100, ⟨2025, 1, 15⟩, none, PaymentStatus.not_due, 0, ""⟩]).collection_rate =
       ((calculateSummary [⟨"1", 100, ⟨2025, 1, 15⟩, none, PaymentStatus.not_due, 0, ""⟩]).received_count : Rat) /
         ((calculateSummary [⟨"1", 100, ⟨2025, 1, 15⟩, none, PaymentStatus.not_due, 0, ""⟩]).total_garages : Rat) * 100) ∧
    ((calculateSummary ([] : List Payment)).total_garages = 0 ∧
     (calculateSummary ([] : List Payment)).collection_rate = 0) :=
  ⟨⟨by decide, by decide,
    (claim_summary_invariants [⟨"1", 100, ⟨2025, 1, 15⟩, none, PaymentStatus.not_due, 0, ""⟩]).2.2.2.2
      (by decide),
    (claim_summary_invariants [⟨"1", 100, ⟨2025, 1, 15⟩, none, PaymentStatus.not_due, 0, ""⟩]).2.2.1
      (by decide)⟩,
   ⟨by decide, (claim_summary_invariants ([] : List Payment)).2.2.2.1 (by decide)⟩⟩

/-- Claim C10: building a report from an empty outcome list fails with the
`ValueError` message, and a successfully built report always has a
non-empty outcome list. -/
theorem claim_report_requires_outcomes (garage_file statement_file : String)
    (payments : List Payment) (analysis_date : PyDate) (notes : List String) :
    PaymentReport.build garage_file statement_file [] analysis_date notes =
      Except.error "Report must contain at least one payment" ∧
    (∀ r : PaymentReport,
      PaymentReport.build garage_file statement_file payments analysis_date notes =
        Except.ok r → payments ≠ []) := by
  constructor
  · rfl
  · intro r hr hnil
    subst hnil
    simp [PaymentReport.build] at hr

theorem claim_report_requires_outcomes_witness :
    PaymentReport.build "garages.xlsx" "statement.xlsx"
        [{ garage_id := "1", amount := 100, expected_date := ⟨2025, 1, 15⟩ }]
        ⟨2025, 1, 20⟩ [] =
      Except.ok
        { analysis_date := ⟨2025, 1, 20⟩
          garage_file := "garages.xlsx"
          statement_file := "statement.xlsx"
          payments := [{ garage_id := "1", amount := 100, expected_date := ⟨2025, 1, 15⟩ }]
          summary := calculateSummary
            [{ garage_id := "1", amount := 100, expected_date := ⟨2025, 1, 15⟩ }]
          notes := [] } ∧
    [{ garage_id := "1", amount := 100, expected_date := (⟨2025, 1, 15⟩ : PyDate) }] ≠
      ([] : List Payment) :=
  ⟨rfl,
    (claim_report_requires_outcomes "garages.xlsx" "statement.xlsx"
      [{ garage_id := "1", amount := 100, expected_date := ⟨2025, 1, 15⟩ }] ⟨2025, 1, 20⟩ []).2
      _ rfl⟩

/-- Claim C1: whenever the engine selects a transaction for an obligation
(by either the narrow or the fallback search), the outcome's status is
unconditionally RECEIVED, its matched date is the transaction's date, and
its day offset is the signed difference `(matched - expected).days`; the
statement imposes no date-window condition on the selected transaction, so
no window is re-validated before RECEIVED is assigned. -/
theorem claim_matched_is_received (m : PaymentMatcher) (garages : List Garage)
    (transactions : List Transaction) (analysis_date target_month : PyDate)
    (used_transactions : List Nat) (g : Garage) (t : Transaction)
    (h : (m.matchOne garages transactions analysis_date target_month used_transactions g).1
      = some t) :
    (m.matchOne garages transactions analysis_date target_month used_transactions g).2.status
        = PaymentStatus.received ∧
    (m.matchOne garages transactions analysis_date target_month
        used_transactions g).2.actual_date = some t.date ∧
    (m.matchOne garages transactions analysis_date target_month
        used_transactions g).2.days_overdue
        = t.date.daysDiff (DateCalculator.calculate_expected_date g target_month) := by
  obtain ⟨h1, h2, h3, -, -⟩ := matchOne_matched m garages transactions analysis_date
    target_month used_transactions g t h
  exact ⟨h1, h2, h3⟩

theorem claim_matched_is_received_witness :
    ((PaymentMatcher.mk 7 3).matchOne [⟨"1", 350000, ⟨2025, 1, 1⟩, 15⟩]
        [⟨21, ⟨2025, 5, 15⟩, 350000, "transfer"⟩] ⟨2025, 6, 30⟩ ⟨2025, 1, 1⟩ []
        ⟨"1", 350000, ⟨2025, 1, 1⟩, 15⟩).1 = some ⟨21, ⟨2025, 5, 15⟩, 350000, "transfer"⟩ ∧
    ((PaymentMatcher.mk 7 3).matchOne [⟨"1", 350000, ⟨2025, 1, 1⟩, 15⟩]
        [⟨21, ⟨2025, 5, 15⟩, 350000, "transfer"⟩] ⟨2025, 6, 30⟩ ⟨2025, 1, 1⟩ []
        ⟨"1", 350000, ⟨2025, 1, 1⟩, 15⟩).2.status = PaymentStatus.received ∧
    ((PaymentMatcher.mk 7 3).matchOne [⟨"1", 350000, ⟨2025, 1, 1⟩, 15⟩]
        [⟨21, ⟨2025, 5, 15⟩, 350000, "transfer"⟩] ⟨2025, 6, 30⟩ ⟨2025, 1, 1⟩ []
        ⟨"1", 350000, ⟨2025, 1, 1⟩, 15⟩).2.actual_date = some ⟨2025, 5, 15⟩ ∧
    ((PaymentMatcher.mk 7 3).matchOne [⟨"1", 350000, ⟨2025, 1, 1⟩, 15⟩]
        [⟨21, ⟨2025, 5, 15⟩, 350000, "transfer"⟩] ⟨2025, 6, 30⟩ ⟨2025, 1, 1⟩ []
        ⟨"1", 350000, ⟨2025, 1, 1⟩, 15⟩).2.days_overdue
      = PyDate.daysDiff ⟨2025, 5, 15⟩
          (DateCalculator.calculate_expected_date ⟨"1", 350000, ⟨2025, 1, 1⟩, 15⟩
            ⟨2025, 1, 1⟩) :=
  ⟨by decide,
    claim_matched_is_received (PaymentMatcher.mk 7 3) [⟨"1", 350000, ⟨2025, 1, 1⟩, 15⟩]
      [⟨21, ⟨2025, 5, 15⟩, 350000, "transfer"⟩] ⟨2025, 6, 30⟩ ⟨2025, 1, 1⟩ []
      ⟨"1", 350000, ⟨2025, 1, 1⟩, 15⟩ ⟨21, ⟨2025, 5, 15⟩, 350000, "transfer"⟩ (by decide)⟩

/-- Claim C7: within one run each transaction is consumed by at most one
outcome (the consumed tids are pairwise distinct, for every input), and
consumption is tracked by identity: in the concrete run two transactions
with identical date, amount and category but distinct identities are both
consumed, one per obligation. -/
theorem claim_consumed_at_most_once (m : PaymentMatcher) (garages : List Garage)
    (transactions : List Transaction) (analysis_date : PyDate)
    (target_month : Option PyDate) :
    (m.selectedTransactionIds garages transactions analysis_date target_month).Nodup ∧
    (PaymentMatcher.mk 7 3).selectedTransactionIds
        [⟨"A", 350000, ⟨2025, 1, 1⟩, 15⟩, ⟨"B", 350000, ⟨2025, 1, 1⟩, 15⟩]
        [⟨1, ⟨2025, 1, 15⟩, 350000, "transfer"⟩, ⟨2, ⟨2025, 1, 15⟩, 350000, "transfer"⟩]
        ⟨2025, 1, 20⟩ none = [1, 2] := by
  constructor
  · simp only [PaymentMatcher.selectedTransactionIds]
    exact (matchTrace_tids_nodup m garages transactions analysis_date _ garages []).1
  · decide

/-- Claim C8: the engine produces exactly one outcome per obligation, in
the order of the input obligation list (equal lengths and pointwise equal
garage ids); as a total function it never raises for a missing
transaction. -/
theorem claim_one_outcome_per_obligation (m : PaymentMatcher) (garages : List Garage)
    (transactions : List Transaction) (analysis_date : PyDate)
    (target_month : Option PyDate) :
    (m.match_payments garages transactions analysis_date target_month).length =
      garages.length ∧
    (m.match_payments garages transactions analysis_date target_month).map
        (fun p => p.garage_id) = garages.map (fun g => g.id) := by
  constructor
  · simp only [PaymentMatcher.match_payments]
    rw [List.length_map]
    exact matchTrace_length m garages transactions analysis_date _ garages []
  · simp only [PaymentMatcher.match_payments]
    rw [List.map_map]
    exact matchTrace_garage_ids m garages transactions analysis_date _ garages []

/-- Claim C2 counterexample: garages G1 and G2 share the amount 3500.00
and there are no transactions, so both outcomes are unmatched; both notes
are exactly "No matching payment found", and no strings `pre`/`post` can
make that equal to a note embedding the joined conflicting identifiers
"G1, G2" (the notes contain no character `1`).  This refutes the claim
that a conflicted obligation with no match still carries a conflict
note. -/
theorem claim_conflict_note_counterexample :
    findAmountConflicts
        [⟨"G1", 350000, ⟨2025, 1, 1⟩, 15⟩, ⟨"G2", 350000, ⟨2025, 1, 1⟩, 15⟩] 350000 =
      ["G1", "G2"] ∧
    ((PaymentMatcher.mk 7 3).match_payments
        [⟨"G1", 350000, ⟨2025, 1, 1⟩, 15⟩, ⟨"G2", 350000, ⟨2025, 1, 1⟩, 15⟩] []
        ⟨2025, 1, 20⟩ none).map (fun p => p.notes) =
      ["No matching payment found", "No matching payment found"] ∧
    ¬ ∃ pre post, "No matching payment found" =
        pre ++ String.intercalate ", " ["G1", "G2"] ++ post := by
  refine ⟨by decide, by decide, ?_⟩
  rintro ⟨pre, post, hEq⟩
  have hJ : (Char.ofNat 49) ∈ (String.intercalate ", " ["G1", "G2"]).data := by decide
  have h1 : (Char.ofNat 49) ∈ "No matching payment found".data := by
    rw [hEq, String.data_append, String.data_append]
    exact List.mem_append.mpr (Or.inl (List.mem_append.mpr (Or.inr hJ)))
  exact absurd h1 (by decide)

/-- Claim C2 (amended): the conflict note is attached only when a
transaction was matched.  An unmatched outcome's notes are exactly
"No matching payment found" with no conflict listing, whether or not the
amount is conflicted; a matched outcome for a conflicted amount carries
notes embedding the joined conflicting identifiers. -/
theorem claim_conflict_note_only_on_match (m : PaymentMatcher) (garages : List Garage)
    (transactions : List Transaction) (analysis_date target_month : PyDate)
    (used_transactions : List Nat) (g : Garage) :
    ((m.matchOne garages transactions analysis_date target_month used_transactions g).1 =
        none →
      (m.matchOne garages transactions analysis_date target_month
        used_transactions g).2.notes = "No matching payment found") ∧
    (∀ t, (m.matchOne garages transactions analysis_date target_month
        used_transactions g).1 = some t →
      findAmountConflicts garages g.monthly_rent ≠ [] →
      ∃ pre post,
        (m.matchOne garages transactions analysis_date target_month
          used_transactions g).2.notes =
          pre ++ String.intercalate ", " (findAmountConflicts garages g.monthly_rent) ++
            post) := by
  constructor
  · intro h
    rw [matchOne_unmatched m garages transactions analysis_date target_month
      used_transactions g h]
    rfl
  · intro t ht hc
    rw [matchOne_unfold] at ht ⊢
    split at ht
    · next t2 hb =>
      obtain ⟨pre, post, hsnd, hne⟩ := findBestMatch_conflict_note m g.monthly_rent
        (DateCalculator.calculate_expected_date g target_month) transactions
        used_transactions (findAmountConflicts garages g.monthly_rent) analysis_date t2 hc hb
      refine ⟨pre, post, ?_⟩
      simp only [PaymentMatcher.createMatchedPayment]
      rw [if_neg hne]
      exact hsnd
    · next hb =>
      split at ht
      · next t2 hf =>
        obtain ⟨pre, post, hsnd, hne⟩ := findFallbackMatch_conflict_note m g.monthly_rent
          transactions used_transactions (findAmountConflicts garages g.monthly_rent)
          analysis_date t2 hc hf
        refine ⟨pre, post, ?_⟩
        simp only [PaymentMatcher.createMatchedPayment]
        rw [if_neg hne]
        exact hsnd
      · next hf => simp at ht

theorem claim_conflict_note_only_on_match_witness :
    (((PaymentMatcher.mk 7 3).matchOne
        [⟨"G1", 350000, ⟨2025, 1, 1⟩, 15⟩, ⟨"G2", 350000, ⟨2025, 1, 1⟩, 15⟩] []
        ⟨2025, 1, 20⟩ ⟨2025, 1, 1⟩ [] ⟨"G2", 350000, ⟨2025, 1, 1⟩, 15⟩).1 = none ∧
      ((PaymentMatcher.mk 7 3).matchOne
        [⟨"G1", 350000, ⟨2025, 1, 1⟩, 15⟩, ⟨"G2", 350000, ⟨2025, 1, 1⟩, 15⟩] []
        ⟨2025, 1, 20⟩ ⟨2025, 1, 1⟩ [] ⟨"G2", 350000, ⟨2025, 1, 1⟩, 15⟩).2.notes =
        "No matching payment found") ∧
    (((PaymentMatcher.mk 7 3).matchOne
        [⟨"G1", 350000, ⟨2025, 1, 1⟩, 15⟩, ⟨"G2", 350000, ⟨2025, 1, 1⟩, 15⟩]
        [⟨1, ⟨2025, 1, 15⟩, 350000, "transfer"⟩]
        ⟨2025, 1, 20⟩ ⟨2025, 1, 1⟩ [] ⟨"G1", 350000, ⟨2025, 1, 1⟩, 15⟩).1 =
        some ⟨1, ⟨2025, 1, 15⟩, 350000, "transfer"⟩ ∧
      findAmountConflicts
        [⟨"G1", 350000, ⟨2025, 1, 1⟩, 15⟩, ⟨"G2", 350000, ⟨2025, 1, 1⟩, 15⟩] 350000 ≠ [] ∧
      ∃ pre post,
        ((PaymentMatcher.mk 7 3).matchOne
          [⟨"G1", 350000, ⟨2025, 1, 1⟩, 15⟩, ⟨"G2", 350000, ⟨2025, 1, 1⟩, 15⟩]
          [⟨1, ⟨2025, 1, 15⟩, 350000, "transfer"⟩]
          ⟨2025, 1, 20⟩ ⟨2025, 1, 1⟩ [] ⟨"G1", 350000, ⟨2025, 1, 1⟩, 15⟩).2.notes =
          pre ++ String.intercalate ", "
            (findAmountConflicts
              [⟨"G1", 350000, ⟨2025, 1, 1⟩, 15⟩, ⟨"G2", 350000, ⟨2025, 1, 1⟩, 15⟩]
              350000) ++ post) :=
  ⟨⟨by decide,
    (claim_conflict_note_only_on_match (PaymentMatcher.mk 7 3)
      [⟨"G1", 350000, ⟨2025, 1, 1⟩, 15⟩, ⟨"G2", 350000, ⟨2025, 1, 1⟩, 15⟩] []
      ⟨2025, 1, 20⟩ ⟨2025, 1, 1⟩ [] ⟨"G2", 350000, ⟨2025, 1, 1⟩, 15⟩).1 (by decide)⟩,
   ⟨by decide, by decide,
    (claim_conflict_note_only_on_match (PaymentMatcher.mk 7 3)
      [⟨"G1", 350000, ⟨2025, 1, 1⟩, 15⟩, ⟨"G2", 350000, ⟨2025, 1, 1⟩, 15⟩]
      [⟨1, ⟨2025, 1, 15⟩, 350000, "transfer"⟩]
      ⟨2025, 1, 20⟩ ⟨2025, 1, 1⟩ [] ⟨"G1", 350000, ⟨2025, 1, 1⟩, 15⟩).2
      ⟨1, ⟨2025, 1, 15⟩, 350000, "transfer"⟩ (by decide) (by decide)⟩⟩

/-- Claim C4: the narrow-search candidate set is exactly the unconsumed
transactions whose amount is within tolerance 0.01 (one hundredth), whose
date lies in `[expected - search_window_days, expected + grace_period_days]`
(constructor defaults 7 and 3), and whose date is ≤ analysis_date; with
two or more candidates the engine selects the one closest in absolute
days to the expected date, breaking distance ties by the input order of
the candidate list (the choice is strictly closer than every earlier
candidate and at least as close as every later one). -/
theorem claim_narrow_search (m : PaymentMatcher) (amount : Money)
    (expected_date : PyDate) (transactions : List Transaction)
    (used_transactions : List Nat) (conflicting_garages : List String)
    (analysis_date : PyDate) :
    (∀ t, t ∈ m.narrowCandidates amount expected_date transactions used_transactions
        analysis_date ↔
      t ∈ transactions ∧ t.tid ∉ used_transactions ∧ |t.amount - amount| ≤ 1 ∧
        expected_date.toOrd - m.search_window_days ≤ t.date.toOrd ∧
        t.date.toOrd ≤ expected_date.toOrd + m.grace_period_days ∧
        t.date.toOrd ≤ analysis_date.toOrd) ∧
    ({} : PaymentMatcher).search_window_days = 7 ∧
    ({} : PaymentMatcher).grace_period_days = 3 ∧
    ((m.findBestMatch amount expected_date transactions used_transactions
        conflicting_garages analysis_date).1 = none ↔
      m.narrowCandidates amount expected_date transactions used_transactions analysis_date
        = []) ∧
    (∀ t, (m.findBestMatch amount expected_date transactions used_transactions
        conflicting_garages analysis_date).1 = some t →
      t ∈ m.narrowCandidates amount expected_date transactions used_transactions
        analysis_date) ∧
    (∀ c c2 cs, m.narrowCandidates amount expected_date transactions used_transactions
        analysis_date = c :: c2 :: cs →
      ∃ b pre post, (m.findBestMatch amount expected_date transactions used_transactions
          conflicting_garages analysis_date).1 = some b ∧
        c :: c2 :: cs = pre ++ b :: post ∧
        (∀ d ∈ pre, |b.date.daysDiff expected_date| < |d.date.daysDiff expected_date|) ∧
        (∀ d ∈ post, |b.date.daysDiff expected_date| ≤ |d.date.daysDiff expected_date|)) := by
  refine ⟨mem_narrowCandidates m amount expected_date transactions used_transactions
      analysis_date, rfl, rfl,
    findBestMatch_none_iff m amount expected_date transactions used_transactions
      conflicting_garages analysis_date,
    findBestMatch_some_mem m amount expected_date transactions used_transactions
      conflicting_garages analysis_date, ?_⟩
  intro c c2 cs hcand
  obtain ⟨pre, post, hdec, hpre, hpost⟩ :=
    pyminBy_first_min (fun t => |t.date.daysDiff expected_date|) (c2 :: cs) c
  exact ⟨pyminBy (fun t => |t.date.daysDiff expected_date|) c (c2 :: cs), pre, post,
    findBestMatch_multi m amount expected_date transactions used_transactions
      conflicting_garages analysis_date c c2 cs hcand, hdec, hpre, hpost⟩

theorem claim_narrow_search_witness :
    (PaymentMatcher.mk 7 3).narrowCandidates 350000 ⟨2025, 1, 15⟩
        [⟨1, ⟨2025, 1, 10⟩, 350000, "transfer"⟩, ⟨2, ⟨2025, 1, 16⟩, 350000, "transfer"⟩,
         ⟨3, ⟨2025, 1, 14⟩, 350000, "transfer"⟩] [] ⟨2025, 1, 20⟩ =
      ⟨1, ⟨2025, 1, 10⟩, 350000, "transfer"⟩ :: ⟨2, ⟨2025, 1, 16⟩, 350000, "transfer"⟩ ::
        [⟨3, ⟨2025, 1, 14⟩, 350000, "transfer"⟩] ∧
    ∃ b pre post,
      ((PaymentMatcher.mk 7 3).findBestMatch 350000 ⟨2025, 1, 15⟩
          [⟨1, ⟨2025, 1, 10⟩, 350000, "transfer"⟩, ⟨2, ⟨2025, 1, 16⟩, 350000, "transfer"⟩,
           ⟨3, ⟨2025, 1, 14⟩, 350000, "transfer"⟩] [] [] ⟨2025, 1, 20⟩).1 = some b ∧
      (⟨1, ⟨2025, 1, 10⟩, 350000, "transfer"⟩ : Transaction) ::
          ⟨2, ⟨2025, 1, 16⟩, 350000, "transfer"⟩ ::
          [⟨3, ⟨2025, 1, 14⟩, 350000, "transfer"⟩] = pre ++ b :: post ∧
      (∀ d ∈ pre, |b.date.daysDiff ⟨2025, 1, 15⟩| < |d.date.daysDiff ⟨2025, 1, 15⟩|) ∧
      (∀ d ∈ post, |b.date.daysDiff ⟨2025, 1, 15⟩| ≤ |d.date.daysDiff ⟨2025, 1, 15⟩|) :=
  ⟨by decide,
    (claim_narrow_search (PaymentMatcher.mk 7 3) 350000 ⟨2025, 1, 15⟩
        [⟨1, ⟨2025, 1, 10⟩, 350000, "transfer"⟩, ⟨2, ⟨2025, 1, 16⟩, 350000, "transfer"⟩,
         ⟨3, ⟨2025, 1, 14⟩, 350000, "transfer"⟩] [] [] ⟨2025, 1, 20⟩).2.2.2.2.2
      ⟨1, ⟨2025, 1, 10⟩, 350000, "transfer"⟩ ⟨2, ⟨2025, 1, 16⟩, 350000, "transfer"⟩
      [⟨3, ⟨2025, 1, 14⟩, 350000, "transfer"⟩] (by decide)⟩

/-- Claim C3: when an obligation's narrow search yields zero candidates
the engine's selection is the fallback search's selection; the fallback
candidate set is exactly the unconsumed transactions within amount
tolerance whose date is ≤ analysis_date, with no date-window restriction,
and with two or more candidates the fallback selects the earliest-dated
one (not the one closest to the expected date). -/
theorem claim_fallback_search (m : PaymentMatcher) (amount : Money)
    (transactions : List Transaction) (used_transactions : List Nat)
    (conflicting_garages : List String) (analysis_date : PyDate) :
    (∀ t, t ∈ m.fallbackCandidates amount transactions used_transactions analysis_date ↔
      t ∈ transactions ∧ t.tid ∉ used_transactions ∧ |t.amount - amount| ≤ 1 ∧
        t.date.toOrd ≤ analysis_date.toOrd) ∧
    (∀ (garages : List Garage) (g : Garage) (target_month : PyDate),
      m.narrowCandidates g.monthly_rent
          (DateCalculator.calculate_expected_date g target_month) transactions
          used_transactions analysis_date = [] →
      (m.matchOne garages transactions analysis_date target_month used_transactions g).1 =
        (m.findFallbackMatch g.monthly_rent transactions used_transactions
          (findAmountConflicts garages g.monthly_rent) analysis_date).1) ∧
    ((m.findFallbackMatch amount transactions used_transactions conflicting_garages
        analysis_date).1 = none ↔
      m.fallbackCandidates amount transactions used_transactions analysis_date = []) ∧
    (∀ t, (m.findFallbackMatch amount transactions used_transactions conflicting_garages
        analysis_date).1 = some t →
      t ∈ m.fallbackCandidates amount transactions used_transactions analysis_date) ∧
    (∀ c c2 cs, m.fallbackCandidates amount transactions used_transactions analysis_date
        = c :: c2 :: cs →
      ∃ b, (m.findFallbackMatch amount transactions used_transactions conflicting_garages
          analysis_date).1 = some b ∧ b ∈ c :: c2 :: cs ∧
        ∀ d ∈ c :: c2 :: cs, b.date.toOrd ≤ d.date.toOrd) := by
  refine ⟨mem_fallbackCandidates m amount transactions used_transactions analysis_date,
    ?_,
    findFallbackMatch_none_iff m amount transactions used_transactions
      conflicting_garages analysis_date,
    findFallbackMatch_some_mem m amount transactions used_transactions
      conflicting_garages analysis_date, ?_⟩
  · intro garages g target_month hnil
    have hb : (m.findBestMatch g.monthly_rent
        (DateCalculator.calculate_expected_date g target_month) transactions
        used_transactions (findAmountConflicts garages g.monthly_rent)
        analysis_date).1 = none :=
      (findBestMatch_none_iff m g.monthly_rent
        (DateCalculator.calculate_expected_date g target_month) transactions
        used_transactions (findAmountConflicts garages g.monthly_rent)
        analysis_date).mpr hnil
    rw [matchOne_unfold, hb]
    cases hf : (m.findFallbackMatch g.monthly_rent transactions used_transactions
        (findAmountConflicts garages g.monthly_rent) analysis_date).1 with
    | none => simp [hf]
    | some t => simp [hf]
  · intro c c2 cs hcand
    exact ⟨pyminBy (fun t => t.date.toOrd) c (c2 :: cs),
      findFallbackMatch_multi m amount transactions used_transactions
        conflicting_garages analysis_date c c2 cs hcand,
      pyminBy_mem (fun t => t.date.toOrd) c (c2 :: cs),
      pyminBy_le (fun t => t.date.toOrd) c (c2 :: cs)⟩

theorem claim_fallback_search_witness :
    (PaymentMatcher.mk 7 3).narrowCandidates 350000
        (DateCalculator.calculate_expected_date ⟨"1", 350000, ⟨2025, 1, 1⟩, 15⟩ ⟨2025, 1, 1⟩)
        [⟨1, ⟨2025, 5, 31⟩, 350000, "transfer"⟩, ⟨2, ⟨2025, 5, 15⟩, 350000, "transfer"⟩,
         ⟨3, ⟨2025, 6, 1⟩, 350000, "transfer"⟩] [] ⟨2025, 6, 30⟩ = [] ∧
    ((PaymentMatcher.mk 7 3).matchOne [⟨"1", 350000, ⟨2025, 1, 1⟩, 15⟩]
        [⟨1, ⟨2025, 5, 31⟩, 350000, "transfer"⟩, ⟨2, ⟨2025, 5, 15⟩, 350000, "transfer"⟩,
         ⟨3, ⟨2025, 6, 1⟩, 350000, "transfer"⟩] ⟨2025, 6, 30⟩ ⟨2025, 1, 1⟩ []
        ⟨"1", 350000, ⟨2025, 1, 1⟩, 15⟩).1 =
      ((PaymentMatcher.mk 7 3).findFallbackMatch 350000
        [⟨1, ⟨2025, 5, 31⟩, 350000, "transfer"⟩, ⟨2, ⟨2025, 5, 15⟩, 350000, "transfer"⟩,
         ⟨3, ⟨2025, 6, 1⟩, 350000, "transfer"⟩] []
        (findAmountConflicts [⟨"1", 350000, ⟨2025, 1, 1⟩, 15⟩] 350000) ⟨2025, 6, 30⟩).1 ∧
    ∃ b, ((PaymentMatcher.mk 7 3).findFallbackMatch 350000
        [⟨1, ⟨2025, 5, 31⟩, 350000, "transfer"⟩, ⟨2, ⟨2025, 5, 15⟩, 350000, "transfer"⟩,
         ⟨3, ⟨2025, 6, 1⟩, 350000, "transfer"⟩] [] [] ⟨2025, 6, 30⟩).1 = some b ∧
      b ∈ (⟨1, ⟨2025, 5, 31⟩, 350000, "transfer"⟩ : Transaction) ::
        ⟨2, ⟨2025, 5, 15⟩, 350000, "transfer"⟩ ::
        [⟨3, ⟨2025, 6, 1⟩, 350000, "transfer"⟩] ∧
      ∀ d ∈ (⟨1, ⟨2025, 5, 31⟩, 350000, "transfer"⟩ : Transaction) ::
          ⟨2, ⟨2025, 5, 15⟩, 350000, "transfer"⟩ ::
          [⟨3, ⟨2025, 6, 1⟩, 350000, "transfer"⟩],
        b.date.toOrd ≤ d.date.toOrd :=
  ⟨by decide,
    (claim_fallback_search (PaymentMatcher.mk 7 3) 350000
        [⟨1, ⟨2025, 5, 31⟩, 350000, "transfer"⟩, ⟨2, ⟨2025, 5, 15⟩, 350000, "transfer"⟩,
         ⟨3, ⟨2025, 6, 1⟩, 350000, "transfer"⟩] []
        (findAmountConflicts [⟨"1", 350000, ⟨2025, 1, 1⟩, 15⟩] 350000) ⟨2025, 6, 30⟩).2.1
      [⟨"1", 350000, ⟨2025, 1, 1⟩, 15⟩] ⟨"1", 350000, ⟨2025, 1, 1⟩, 15⟩ ⟨2025, 1, 1⟩
      (by decide),
    (claim_fallback_search (PaymentMatcher.mk 7 3) 350000
        [⟨1, ⟨2025, 5, 31⟩, 350000, "transfer"⟩, ⟨2, ⟨2025, 5, 15⟩, 350000, "transfer"⟩,
         ⟨3, ⟨2025, 6, 1⟩, 350000, "transfer"⟩] [] [] ⟨2025, 6, 30⟩).2.2.2.2
      ⟨1, ⟨2025, 5, 31⟩, 350000, "transfer"⟩ ⟨2, ⟨2025, 5, 15⟩, 350000, "transfer"⟩
      [⟨3, ⟨2025, 6, 1⟩, 350000, "transfer"⟩] (by decide)⟩

end RentTracker
